import Mathlib

/-!
Verification of the better-fetch-client request/retry/cancellation core.

The repository ships three variants of the same class:
* the named-file variant (`src/better-fetch-client.ts`, first document): config
  object with a required `name`, content-negotiated response decoding, retry
  counter parameter defaulting to `this.maxRetries`;
* an older positional-argument variant (same file, second document): always
  decodes JSON, retry counter defaulting to 0;
* the identifier-tracking variant (`src/unnamed/part_000`): like the positional
  variant but every attempt registers an AbortController in
  `this.abortControllers[requestId]` and a `cancelRequest(requestId)` method
  aborts and removes the stored controller.

This file embeds the named-file variant in namespace `Named` and the
identifier-tracking variant in namespace `Tracking`.  JavaScript values are
modelled as follows: string-keyed plain objects (header records) are
association lists with JavaScript spread-merge semantics; a response body is a
value that either parses as JSON or does not (`BodyVal`); machine numbers that
matter (statuses, retry counters, delays) are `Nat`; thrown errors are an
explicit `ApiErr` sum and fallible computations return `Except`.
-/

/-- `pat` is a leading piece of `s` (on character lists). -/
def leadsList (pat s : List Char) : Bool :=
  match pat, s with
  | [], _ => true
  | _ :: _, [] => false
  | p :: ps, c :: cs => p == c && leadsList ps cs

/-- `pat` occurs somewhere inside `s` (on character lists). -/
def occursList (s pat : List Char) : Bool :=
  match s with
  | [] => pat.isEmpty
  | _ :: cs => leadsList pat s || occursList cs pat

/-- JavaScript `String.prototype.includes`. -/
def includesStr (s pat : String) : Bool :=
  occursList s.data pat.data

/-- Lookup in a plain-object record modelled as an association list
(first binding wins; the merge operations below keep keys unique enough
for this to be the JavaScript property lookup). -/
def recLookup (m : List (String × String)) (k : String) : Option String :=
  (m.find? (fun p => p.1 == k)).map (fun p => p.2)

/-- JavaScript object spread of two records, as in an object literal
written with the entries of `a` first and the entries of `b` second:
keys present in `b` take the value from `b`, all other keys keep the
value from `a`. -/
def spreadTwo (a b : List (String × String)) : List (String × String) :=
  a.filter (fun p => (recLookup b p.1).isNone) ++ b

deriving instance DecidableEq for Except

/-- A response body as delivered by the host transport: either a text that
parses as JSON (we carry the parsed value by its text) or a text that fails
JSON parsing.  `response.json()` succeeds exactly on `jsonVal`;
`response.text()` succeeds on both. -/
inductive BodyVal where
  | jsonVal (v : String)
  | rawText (s : String)
deriving DecidableEq, Repr

/-- The text reading of a body (`response.text()`). -/
def bodyText : BodyVal → String
  | .jsonVal v => v
  | .rawText s => s

/-- Errors thrown out of the request core.  `responseError` and `parseError`
are the two `ApiError` specialisations of the source; `genericError` is a
plain `Error` (used for the unsupported-response-type throw of the named
variant); `transportError` is a rejection of the host `fetch` itself
(network failure or abort). -/
inductive ApiErr where
  | responseError (status : Nat) (response : String)
  | parseError (status : Nat) (response : String)
  | genericError (msg : String)
  | transportError (msg : String)
deriving DecidableEq, Repr

/-- `shouldRetry` of every variant:
`this.withRetry && error instanceof ApiResponseError && error.status >= 500`. -/
def shouldRetry (withRetry : Bool) (e : ApiErr) : Bool :=
  withRetry &&
    (match e with
     | .responseError status _ => decide (500 ≤ status)
     | _ => false)

/-- `response.ok` of the host fetch API: status in the inclusive
range 200 to 299. -/
def statusOk (status : Nat) : Bool :=
  decide (200 ≤ status) && decide (status ≤ 299)

/-- Decoded response data as produced by the content negotiation of the
named variant (`json`, `text`, `blob`, `URLSearchParams`). -/
inductive RData where
  | json (v : String)
  | text (s : String)
  | blob (s : String)
  | urlEncoded (s : String)
deriving DecidableEq, Repr

/-- The body slot of the dispatched `RequestInit`: absent (`null`),
passed through `JSON.stringify`, or passed through raw. -/
inductive SentBody where
  | none
  | jsonStringified (b : String)
  | raw (b : String)
deriving DecidableEq, Repr

namespace Named

/-- Configuration record of the named-file variant
(`BetterFetchClientConfig`), optional fields kept optional; the
constructor applies the source defaults. -/
structure ClientConfig where
  baseUrl : String
  headers : Option (List (String × String)) := none
  withRetry : Option Bool := none
  maxRetries : Option Nat := none
  initialDelayMs : Option Nat := none
  name : String
deriving Repr

/-- The constructed client state (fields of `BetterFetchClient`). -/
structure Client where
  baseUrl : String
  headers : List (String × String)
  withRetry : Bool
  maxRetries : Nat
  initialDelayMs : Nat
  name : String
deriving DecidableEq, Repr

/-- Constructor of the named-file variant (source lines 48 to 74): reject a
falsy `baseUrl`, assign the fields with the line 64 default-header merge
`\x7b Content-Type: application/json, ...headers \x7d`, then reject a falsy
`name`.  A missing or empty string is falsy; both are modelled by `""`. -/
def mkClient (cfg : ClientConfig) : Except String Client :=
  if cfg.baseUrl == "" then
    .error "Base URL is required when setting up a BetterFetchClient"
  else
    let c : Client :=
      { baseUrl := cfg.baseUrl
        headers := spreadTwo [("Content-Type", "application/json")] (cfg.headers.getD [])
        withRetry := cfg.withRetry.getD false
        maxRetries := cfg.maxRetries.getD 3
        initialDelayMs := cfg.initialDelayMs.getD 500
        name := cfg.name }
    if cfg.name == "" then
      .error "Name is required when setting up BetterFetchClient"
    else .ok c

/-- The per-call `config` argument (`Omit<RequestInit, 'body'>`): the parts
the core reads are `method`, `headers` and `signal`.  Signals are named by
numbers. -/
structure RInit where
  method : Option String := none
  headers : List (String × String) := []
  signal : Option Nat := none

/-- `config.method || 'GET'` — the empty string is falsy. -/
def effMethod (m : Option String) : String :=
  match m with
  | none => "GET"
  | some s => if s == "" then "GET" else s

/-- The `RequestInit` value passed to `fetch` (source lines 93 to 103). -/
structure RequestConfig where
  url : String
  method : String
  headers : List (String × String)
  body : SentBody
  signal : Option Nat
deriving Repr

/-- Source lines 93 to 103: url concatenation, header merge
`new Headers(\x7b ...this.headers, ...config.headers \x7d)` (both plain
records here, so the spread really merges), `Content-Type` lookup on the
merged headers, method defaulting, and the body expression
`method !== 'GET' && body ? (contentType === 'application/json' ?
JSON.stringify(body) : body) : null`. -/
def buildRequestConfig (c : Client) (path : String) (body : Option String)
    (cfg : RInit) : RequestConfig :=
  let headers := spreadTwo c.headers cfg.headers
  let contentType := recLookup headers "Content-Type"
  let method := effMethod cfg.method
  { url := c.baseUrl ++ path
    method := method
    headers := headers
    body :=
      match body with
      | some b =>
          if method != "GET" then
            if contentType == some "application/json" then .jsonStringified b
            else .raw b
          else .none
      | none => .none
    signal := cfg.signal }

/-- A response of the host transport for the named variant:
status, declared `Content-Type` (the empty string when the header is
absent, matching `response.headers.get('Content-Type') || ''`), body. -/
structure Response where
  status : Nat
  contentType : String
  body : BodyVal
deriving DecidableEq, Repr

/-- One transport attempt: a response, or a rejection of `fetch` itself. -/
inductive FetchResult where
  | ok (r : Response)
  | netError (msg : String)
deriving DecidableEq, Repr

/-- Outcome classification of one received response (source lines 111 to
158).  Non-ok status: the error body is read as JSON falling back to text
(both give `bodyText` here) and `ApiResponseError` is thrown.  Ok status:
content negotiation; only the JSON branch can fail to decode, the
unsupported-type `Error` is re-thrown unwrapped (lines 142 to 144), every
other decode failure becomes `ApiParseError` with the re-read body
(lines 146 to 157).  Error message strings of the source interpolate the
client name and status; no claim inspects messages, so the embedding keeps
status and payload only. -/
def classifyResponse (r : Response) : Except ApiErr RData :=
  if !statusOk r.status then
    .error (.responseError r.status (bodyText r.body))
  else if includesStr r.contentType "application/json" then
    match r.body with
    | .jsonVal v => .ok (.json v)
    | .rawText s => .error (.parseError r.status s)
  else if includesStr r.contentType "text/" then
    .ok (.text (bodyText r.body))
  else if includesStr r.contentType "application/blob" then
    .ok (.blob (bodyText r.body))
  else if includesStr r.contentType "application/x-www-form-urlencoded" then
    .ok (.urlEncoded (bodyText r.body))
  else
    .error (.genericError ("Unsupported response type: " ++ r.contentType))

/-- The pair (the `response` variable, the classified outcome) of one
attempt: a `fetch` rejection leaves `response` unassigned. -/
def attemptOutcome (transport : Nat → FetchResult) (k : Nat) :
    Option Response × Except ApiErr RData :=
  match transport k with
  | .netError m => (none, .error (.transportError m))
  | .ok r => (some r, classifyResponse r)

/-- The observable run of one logical call: number of `fetch` attempts,
the backoff delays inserted (in order), and the settled promise: a thrown
`ApiErr`, or a resolution carrying the `response` variable of the
resolving invocation (`rawResponse`, `none` when its own `fetch` never
yielded a response) and the `data` variable (`none` on the fall-through
return after a swallowed error). -/
structure RunResult where
  attempts : Nat
  delays : List Nat
  result : Except ApiErr (Option Response × Option RData)
deriving DecidableEq, Repr

/-- The retry recursion of `request` (source lines 105 to 176), indexed by
`k` (0-based attempt number) and the source `retries` counter.  `swallow`
is false for the default `handleError` (line 195 re-throws) and true when a
subclass overrides `handleError` to return.  `budget` bounds the recursion
structurally; every run started by `request` maintains
`budget = maxRetries - retries`, and the retry guard
`retries < this.maxRetries` (line 163) keeps the budget-zero fallback
branch unreachable whenever the guard holds, so the fallback equals the
source no-retry path. -/
def requestGo (c : Client) (swallow : Bool) (transport : Nat → FetchResult) :
    Nat → Nat → Nat → RunResult
  | 0, k, _retries =>
    match attemptOutcome transport k with
    | (respOpt, .ok d) =>
        { attempts := 1, delays := [], result := .ok (respOpt, some d) }
    | (respOpt, .error e) =>
        if swallow then { attempts := 1, delays := [], result := .ok (respOpt, none) }
        else { attempts := 1, delays := [], result := .error e }
  | b + 1, k, retries =>
    match attemptOutcome transport k with
    | (respOpt, .ok d) =>
        { attempts := 1, delays := [], result := .ok (respOpt, some d) }
    | (respOpt, .error e) =>
        if decide (retries < c.maxRetries) && shouldRetry c.withRetry e then
          let r := requestGo c swallow transport b (k + 1) (retries + 1)
          { attempts := r.attempts + 1
            delays := c.initialDelayMs * 2 ^ retries :: r.delays
            result := r.result }
        else
          if swallow then { attempts := 1, delays := [], result := .ok (respOpt, none) }
          else { attempts := 1, delays := [], result := .error e }

/-- One logical `request` call with an explicit starting value of the
`retries` counter (fourth parameter of the source `request`). -/
def request (c : Client) (swallow : Bool) (path : String) (body : Option String)
    (cfg : RInit) (transport : RequestConfig → Nat → FetchResult)
    (retries0 : Nat) : RunResult :=
  requestGo c swallow (transport (buildRequestConfig c path body cfg))
    (c.maxRetries - retries0) 0 retries0

/-- A `request` call that leaves the `retries` parameter at its source
default `this.maxRetries` (line 91) — the call shape used by every
convenience wrapper. -/
def requestDefault (c : Client) (swallow : Bool) (path : String)
    (body : Option String) (cfg : RInit)
    (transport : RequestConfig → Nat → FetchResult) : RunResult :=
  request c swallow path body cfg transport c.maxRetries

end Named

namespace Tracking

/-- Configuration record of the identifier-tracking variant (part_000
lines 4 to 10): same fields as the named variant minus `name`. -/
structure ClientConfig where
  baseUrl : String
  headers : Option (List (String × String)) := none
  withRetry : Option Bool := none
  maxRetries : Option Nat := none
  initialDelayMs : Option Nat := none
deriving Repr

/-- A host `Headers` instance.  Its entries live in internal slots of the
host object, not in own enumerable properties — the distinction matters
for object spread below. -/
structure HeadersObj where
  entries : List (String × String)
deriving DecidableEq, Repr

/-- The constructed client state of the identifier-tracking variant. -/
structure Client where
  baseUrl : String
  headers : HeadersObj
  withRetry : Bool
  maxRetries : Nat
  initialDelayMs : Nat
deriving DecidableEq, Repr

/-- Constructor (part_000 lines 47 to 62): performs no validation at all;
the default `Content-Type` is merged with the configured record (a plain
object, so this spread really merges) and wrapped in a `Headers`
instance. -/
def mkClient (cfg : ClientConfig) : Client :=
  { baseUrl := cfg.baseUrl
    headers := ⟨spreadTwo [("Content-Type", "application/json")] (cfg.headers.getD [])⟩
    withRetry := cfg.withRetry.getD false
    maxRetries := cfg.maxRetries.getD 3
    initialDelayMs := cfg.initialDelayMs.getD 500 }

/-- Object spread of a `Headers` instance, as written in
`new Headers(\x7b ...this.headers, ...customHeaders \x7d)` (part_000
line 85): object spread copies own enumerable string-keyed properties,
and a `Headers` instance has none, so the spread contributes no
entries. -/
def spreadOfHeadersObj (_h : HeadersObj) : List (String × String) := []

/-- The `RequestInit` value of one attempt, minus the per-attempt signal
(threaded by the run semantics below). -/
structure RequestConfig where
  url : String
  method : String
  headers : List (String × String)
  body : SentBody
deriving DecidableEq, Repr

/-- part_000 lines 84 to 99: url concatenation, the header merge through
the `Headers` spread, and the body expression
`method !== 'GET' && body ? JSON.stringify(body) : null` (stringified
unconditionally for non-GET). -/
def buildConfig (c : Client) (method path : String) (body : Option String)
    (custom : List (String × String)) : RequestConfig :=
  { url := c.baseUrl ++ path
    method := method
    headers := spreadTwo (spreadOfHeadersObj c.headers) custom
    body :=
      match body with
      | some b => if method != "GET" then .jsonStringified b else .none
      | none => .none }

/-- A transport response for this variant: status and body (no content
negotiation happens, the declared type is never read). -/
structure Response where
  status : Nat
  body : BodyVal
deriving DecidableEq, Repr

/-- One transport attempt. -/
inductive FetchResult where
  | ok (r : Response)
  | netError (msg : String)
deriving DecidableEq, Repr

/-- part_000 lines 103 to 129: `response.json()` is attempted
unconditionally; a body that fails JSON parsing throws
`ApiParseError(status, text, null)` regardless of the status; then a
non-ok status throws `ApiResponseError(status, text, data)`. -/
def classifyResponse (r : Response) : Except ApiErr String :=
  match r.body with
  | .rawText s => .error (.parseError r.status s)
  | .jsonVal v =>
      if statusOk r.status then .ok v else .error (.responseError r.status v)

/-- The classified outcome of attempt `k` when its fetch is not aborted. -/
def attemptOutcome (transport : Nat → FetchResult) (k : Nat) :
    Except ApiErr String :=
  match transport k with
  | .netError m => .error (.transportError m)
  | .ok r => classifyResponse r

/-- `this.abortControllers`: at most one abort handle per request
identifier, by the data model of a string-keyed object. -/
abbrev Registry := String → Option Nat

/-- The mutable instance state touched by a run: the registry, a supply
of fresh `AbortController` identities, and the set of aborted
controllers. -/
structure State where
  registry : Registry
  nextCtrl : Nat
  aborted : List Nat

/-- A client with no pending request and no controller yet. -/
def State.init : State := ⟨fun _ => none, 0, []⟩

/-- `cancelRequest` (part_000 lines 177 to 183): abort and delete the
stored controller when the identifier is present, otherwise do
nothing. -/
def cancelRequest (s : State) (id : String) : State :=
  match s.registry id with
  | some ctrl =>
      { s with
        aborted := ctrl :: s.aborted
        registry := fun x => if x == id then none else s.registry x }
  | none => s

/-- `delete this.abortControllers[requestId]` (a no-op on an absent
key). -/
def deleteEntry (r : Registry) (id : String) : Registry :=
  fun x => if x == id then none else r x

/-- The observable run of one logical call: attempt count, the controller
identity used by each attempt (its signal), backoff delays, the number of
registry insertions (line 92) and of physical deletions of a present entry
(lines 127, 132 and the delete inside `cancelRequest`), the final instance
state, and the settled promise (`.ok none` is the fall-through
`return null`). -/
structure RunResult where
  attempts : Nat
  ctrls : List Nat
  delays : List Nat
  created : Nat
  removals : Nat
  state : State
  result : Except ApiErr (Option String)

/-- The retry recursion of part_000 `request` (lines 87 to 148).  Each
invocation creates a fresh `AbortController` (line 88), stores it under
the same `requestId` (line 92; the recursion at line 140 passes the
identifier unchanged), and deletes the entry on both the success path
(line 127) and the error path (line 132) before any backoff delay.
`cancelIF k` means the caller invokes `cancelRequest id` while attempt `k`
is in flight (the fetch then rejects with an abort error);
`cancelBO k` means the caller invokes it during the backoff delay that
follows a failed attempt `k`.  `budget` bounds the recursion structurally
with the same invariant as in the named variant. -/
def requestGo (c : Client) (swallow : Bool) (transport : Nat → FetchResult)
    (cancelIF cancelBO : Nat → Bool) (id : String) :
    Nat → Nat → Nat → State → RunResult
  | 0, k, _retries, s =>
    let ctrl := s.nextCtrl
    let s1 : State :=
      { registry := fun x => if x == id then some ctrl else s.registry x
        nextCtrl := ctrl + 1
        aborted := s.aborted }
    let s2 := if cancelIF k then cancelRequest s1 id else s1
    let remIF : Nat := if cancelIF k && (s1.registry id).isSome then 1 else 0
    let fetched : Except ApiErr String :=
      if s2.aborted.contains ctrl then .error (.transportError "AbortError")
      else attemptOutcome transport k
    match fetched with
    | .ok d =>
        let rem : Nat := if (s2.registry id).isSome then 1 else 0
        let s3 : State := { s2 with registry := deleteEntry s2.registry id }
        { attempts := 1, ctrls := [ctrl], delays := [], created := 1,
          removals := remIF + rem, state := s3, result := .ok (some d) }
    | .error e =>
        let rem : Nat := if (s2.registry id).isSome then 1 else 0
        let s3 : State := { s2 with registry := deleteEntry s2.registry id }
        if swallow then
          { attempts := 1, ctrls := [ctrl], delays := [], created := 1,
            removals := remIF + rem, state := s3, result := .ok none }
        else
          { attempts := 1, ctrls := [ctrl], delays := [], created := 1,
            removals := remIF + rem, state := s3, result := .error e }
  | b + 1, k, retries, s =>
    let ctrl := s.nextCtrl
    let s1 : State :=
      { registry := fun x => if x == id then some ctrl else s.registry x
        nextCtrl := ctrl + 1
        aborted := s.aborted }
    let s2 := if cancelIF k then cancelRequest s1 id else s1
    let remIF : Nat := if cancelIF k && (s1.registry id).isSome then 1 else 0
    let fetched : Except ApiErr String :=
      if s2.aborted.contains ctrl then .error (.transportError "AbortError")
      else attemptOutcome transport k
    match fetched with
    | .ok d =>
        let rem : Nat := if (s2.registry id).isSome then 1 else 0
        let s3 : State := { s2 with registry := deleteEntry s2.registry id }
        { attempts := 1, ctrls := [ctrl], delays := [], created := 1,
          removals := remIF + rem, state := s3, result := .ok (some d) }
    | .error e =>
        let rem : Nat := if (s2.registry id).isSome then 1 else 0
        let s3 : State := { s2 with registry := deleteEntry s2.registry id }
        if decide (retries < c.maxRetries) && shouldRetry c.withRetry e then
          let remBO : Nat := if cancelBO k && (s3.registry id).isSome then 1 else 0
          let s4 := if cancelBO k then cancelRequest s3 id else s3
          let r := requestGo c swallow transport cancelIF cancelBO id b (k + 1) (retries + 1) s4
          { attempts := r.attempts + 1, ctrls := ctrl :: r.ctrls,
            delays := c.initialDelayMs * 2 ^ retries :: r.delays,
            created := r.created + 1,
            removals := remIF + rem + remBO + r.removals,
            state := r.state, result := r.result }
        else
          if swallow then
            { attempts := 1, ctrls := [ctrl], delays := [], created := 1,
              removals := remIF + rem, state := s3, result := .ok none }
          else
            { attempts := 1, ctrls := [ctrl], delays := [], created := 1,
              removals := remIF + rem, state := s3, result := .error e }

/-- One logical call of the identifier-tracking `request`, starting from
instance state `s`, with the `retries` counter at its source default 0
(part_000 line 81). -/
def request (c : Client) (swallow : Bool) (method path : String)
    (body : Option String) (custom : List (String × String))
    (transport : RequestConfig → Nat → FetchResult)
    (cancelIF cancelBO : Nat → Bool) (id : String) (s : State) : RunResult :=
  requestGo c swallow (transport (buildConfig c method path body custom))
    cancelIF cancelBO id c.maxRetries 0 0 s

end Tracking

/-- The header layering the specification describes: the default
`Content-Type: application/json` mapping, overlaid by the client-level
default headers, overlaid by the per-call overrides, later layers winning
on key collision.  (Written from the words of the spec, for comparison
with the merges the source performs.) -/
def specHeaderLookup (clientDefaults perCall : List (String × String))
    (k : String) : Option String :=
  match recLookup perCall k with
  | some v => some v
  | none =>
    match recLookup clientDefaults k with
    | some v => some v
    | none => recLookup [("Content-Type", "application/json")] k

theorem recLookup_cons (p : String × String) (a : List (String × String))
    (k : String) :
    recLookup (p :: a) k = if p.1 == k then some p.2 else recLookup a k := by
  by_cases h : p.1 == k <;> simp [recLookup, List.find?, h]

/-- Lookup across a JavaScript two-record spread: a key bound in the
second record takes its value there, any other key falls back to the
first record. -/
theorem recLookup_spreadTwo (a b : List (String × String)) (k : String) :
    recLookup (spreadTwo a b) k =
      match recLookup b k with
      | some v => some v
      | none => recLookup a k := by
  induction a with
  | nil =>
    simp only [spreadTwo, List.filter_nil, List.nil_append]
    cases h : recLookup b k <;> simp [recLookup, h]
  | cons p a ih =>
    cases hbk : recLookup b k with
    | some v =>
      by_cases hpb : (recLookup b p.1).isNone = true
      · have hcons : spreadTwo (p :: a) b = p :: spreadTwo a b := by
          simp [spreadTwo, List.filter_cons, hpb]
        have hpk : (p.1 == k) = false := by
          cases h2 : (p.1 == k) with
          | false => rfl
          | true =>
            have hk : p.1 = k := by simpa using h2
            rw [hk, hbk] at hpb
            simp at hpb
        simp [hcons, recLookup_cons, hpk, ih, hbk]
      · have hcons : spreadTwo (p :: a) b = spreadTwo a b := by
          simp [spreadTwo, List.filter_cons, hpb]
        rw [hcons, ih, hbk]
    | none =>
      by_cases hpb : (recLookup b p.1).isNone = true
      · have hcons : spreadTwo (p :: a) b = p :: spreadTwo a b := by
          simp [spreadTwo, List.filter_cons, hpb]
        rw [hcons, recLookup_cons]
        by_cases hpk : (p.1 == k) = true
        · rw [recLookup_cons, hpk]
          simp
        · have hpk2 : (p.1 == k) = false := by
            cases h2 : (p.1 == k) with
            | false => rfl
            | true => exact absurd h2 hpk
          rw [hpk2, ih, hbk, recLookup_cons, hpk2]
      · have hcons : spreadTwo (p :: a) b = spreadTwo a b := by
          simp [spreadTwo, List.filter_cons, hpb]
        have hpk : (p.1 == k) = false := by
          cases h2 : (p.1 == k) with
          | false => rfl
          | true =>
            have hk : p.1 = k := by simpa using h2
            rw [hk, hbk] at hpb
            simp at hpb
        rw [hcons, ih, hbk, recLookup_cons, hpk]
        simp

namespace Named

theorem requestGo_ok (c : Client) (swallow : Bool)
    (transport : Nat → FetchResult) (b k retries : Nat)
    (respOpt : Option Response) (d : RData)
    (hA : attemptOutcome transport k = (respOpt, .ok d)) :
    requestGo c swallow transport b k retries =
      { attempts := 1, delays := [], result := .ok (respOpt, some d) } := by
  cases b <;> simp [requestGo, hA]

theorem requestGo_no_retry (c : Client) (swallow : Bool)
    (transport : Nat → FetchResult) (b k retries : Nat)
    (respOpt : Option Response) (e : ApiErr)
    (hA : attemptOutcome transport k = (respOpt, .error e))
    (hg : shouldRetry c.withRetry e = false) :
    requestGo c swallow transport b k retries =
      (if swallow then
        { attempts := 1, delays := [], result := .ok (respOpt, none) }
       else
        { attempts := 1, delays := [], result := .error e }) := by
  cases b <;> simp [requestGo, hA, hg]

theorem requestGo_retry_step (c : Client) (swallow : Bool)
    (transport : Nat → FetchResult) (b k retries : Nat)
    (respOpt : Option Response) (e : ApiErr)
    (hA : attemptOutcome transport k = (respOpt, .error e))
    (hr : retries < c.maxRetries)
    (hs : shouldRetry c.withRetry e = true) :
    requestGo c swallow transport (b + 1) k retries =
      { attempts := (requestGo c swallow transport b (k + 1) (retries + 1)).attempts + 1
        delays := c.initialDelayMs * 2 ^ retries ::
          (requestGo c swallow transport b (k + 1) (retries + 1)).delays
        result := (requestGo c swallow transport b (k + 1) (retries + 1)).result } := by
  simp [requestGo, hA, hr, hs]

/-- When every attempt classifies to the same error, the error
surfaces (default `handleError`). -/
theorem requestGo_const_error (c : Client) (transport : Nat → FetchResult)
    (e : ApiErr) (h : ∀ j, (attemptOutcome transport j).2 = .error e) :
    ∀ b k retries, (requestGo c false transport b k retries).result = .error e := by
  intro b
  induction b with
  | zero =>
    intro k retries
    rcases hA : attemptOutcome transport k with ⟨ro, out⟩
    have hout : out = .error e := by have := h k; rw [hA] at this; simpa using this
    subst hout
    simp [requestGo, hA]
  | succ b ih =>
    intro k retries
    rcases hA : attemptOutcome transport k with ⟨ro, out⟩
    have hout : out = .error e := by have := h k; rw [hA] at this; simpa using this
    subst hout
    by_cases hg : retries < c.maxRetries ∧ shouldRetry c.withRetry e = true
    · simp [requestGo, hA, hg, ih]
    · simp [requestGo, hA, hg]

/-- With `handleError` overridden to return, a run never rejects. -/
theorem requestGo_swallow_resolves (c : Client)
    (transport : Nat → FetchResult) :
    ∀ b k retries, ∃ p,
      (requestGo c true transport b k retries).result = .ok p := by
  intro b
  induction b with
  | zero =>
    intro k retries
    rcases hA : attemptOutcome transport k with ⟨ro, out⟩
    rcases out with e | d
    · exact ⟨(ro, none), by simp [requestGo, hA]⟩
    · exact ⟨(ro, some d), by simp [requestGo, hA]⟩
  | succ b ih =>
    intro k retries
    rcases hA : attemptOutcome transport k with ⟨ro, out⟩
    rcases out with e | d
    · by_cases hg : retries < c.maxRetries ∧ shouldRetry c.withRetry e = true
      · obtain ⟨p, hp⟩ := ih (k + 1) (retries + 1)
        exact ⟨p, by simp [requestGo, hA, hg, hp]⟩
      · exact ⟨(ro, none), by simp [requestGo, hA, hg]⟩
    · exact ⟨(ro, some d), by simp [requestGo, hA]⟩

end Named

@[simp]
theorem shouldRetry_transportError (w : Bool) (m : String) :
    shouldRetry w (.transportError m) = false := by
  simp [shouldRetry]

@[simp]
theorem shouldRetry_parseError (w : Bool) (st : Nat) (b : String) :
    shouldRetry w (.parseError st b) = false := by
  simp [shouldRetry]

@[simp]
theorem shouldRetry_genericError (w : Bool) (m : String) :
    shouldRetry w (.genericError m) = false := by
  simp [shouldRetry]

theorem shouldRetry_responseError (w : Bool) (st : Nat) (b : String) :
    shouldRetry w (.responseError st b) = (w && decide (500 ≤ st)) := by
  simp [shouldRetry]

namespace Tracking

theorem cancelRequest_absent (s : State) (id : String)
    (h : s.registry id = none) : cancelRequest s id = s := by
  simp [cancelRequest, h]

theorem cancelRequest_frame (s : State) (id x : String) (h : x ≠ id) :
    (cancelRequest s id).registry x = s.registry x := by
  cases hr : s.registry id with
  | none => simp [cancelRequest, hr]
  | some ctrl => simp [cancelRequest, hr, h]

theorem cancelRequest_nextCtrl (s : State) (id : String) :
    (cancelRequest s id).nextCtrl = s.nextCtrl := by
  cases hr : s.registry id <;> simp [cancelRequest, hr]

/-- Created entries match attempts: every attempt registers exactly one
controller under the request identifier. -/
theorem requestGo_created (c : Client) (swallow : Bool)
    (transport : Nat → FetchResult) (cancelIF cancelBO : Nat → Bool)
    (id : String) :
    ∀ b k retries s,
      (requestGo c swallow transport cancelIF cancelBO id b k retries s).created =
        (requestGo c swallow transport cancelIF cancelBO id b k retries s).attempts := by
  intro b
  induction b with
  | zero =>
    intro k retries s
    simp only [requestGo]
    split
    · rfl
    · cases swallow <;> simp
  | succ b ih =>
    intro k retries s
    simp only [requestGo]
    split
    · rfl
    · split
      · simp [ih]
      · cases swallow <;> simp

/-- Physical removals of a present registry entry match attempts: each
attempt removes the entry it registered exactly once, whether through the
success-path delete, the error-path delete, or a mid-flight
`cancelRequest`; the delete hitting an absent key after a cancellation,
and a `cancelRequest` issued during a backoff delay, remove nothing. -/
theorem requestGo_removals (c : Client) (swallow : Bool)
    (transport : Nat → FetchResult) (cancelIF cancelBO : Nat → Bool)
    (id : String) :
    ∀ b k retries s,
      (requestGo c swallow transport cancelIF cancelBO id b k retries s).removals =
        (requestGo c swallow transport cancelIF cancelBO id b k retries s).attempts := by
  intro b
  induction b with
  | zero =>
    intro k retries s
    cases hc : cancelIF k with
    | true =>
      cases swallow <;>
        simp [requestGo, hc, cancelRequest, deleteEntry]
    | false =>
      by_cases hab : s.nextCtrl ∈ s.aborted
      · cases swallow <;> simp [requestGo, hc, hab, deleteEntry]
      · rcases hA : attemptOutcome transport k with e | d
        · cases swallow <;> simp [requestGo, hc, hab, hA, deleteEntry]
        · simp [requestGo, hc, hab, hA, deleteEntry]
  | succ b ih =>
    intro k retries s
    cases hc : cancelIF k with
    | true =>
      cases swallow <;>
        simp [requestGo, hc, cancelRequest, deleteEntry]
    | false =>
      by_cases hab : s.nextCtrl ∈ s.aborted
      · cases swallow <;> simp [requestGo, hc, hab, deleteEntry]
      · rcases hA : attemptOutcome transport k with e | d
        · by_cases hg : retries < c.maxRetries ∧ shouldRetry c.withRetry e = true
          · simp [requestGo, hc, hab, hA, hg, deleteEntry, cancelRequest_absent,
              ih, Nat.add_comm]
          · cases swallow <;> simp [requestGo, hc, hab, hA, hg, deleteEntry]
        · simp [requestGo, hc, hab, hA, deleteEntry]

/-- After a complete run, the registry no longer holds the request
identifier: the last attempt always deletes its entry. -/
theorem requestGo_registry_cleared (c : Client) (swallow : Bool)
    (transport : Nat → FetchResult) (cancelIF cancelBO : Nat → Bool)
    (id : String) :
    ∀ b k retries s,
      (requestGo c swallow transport cancelIF cancelBO id b k retries s).state.registry id
        = none := by
  intro b
  induction b with
  | zero =>
    intro k retries s
    simp only [requestGo]
    split
    · simp [deleteEntry]
    · cases swallow <;> simp [deleteEntry]
  | succ b ih =>
    intro k retries s
    simp only [requestGo]
    split
    · simp [deleteEntry]
    · split
      · simp [ih]
      · cases swallow <;> simp [deleteEntry]

/-- A run never touches the registry entry of any other identifier. -/
theorem requestGo_registry_frame (c : Client) (swallow : Bool)
    (transport : Nat → FetchResult) (cancelIF cancelBO : Nat → Bool)
    (id : String) :
    ∀ b k retries s (x : String), x ≠ id →
      (requestGo c swallow transport cancelIF cancelBO id b k retries s).state.registry x
        = s.registry x := by
  intro b
  induction b with
  | zero =>
    intro k retries s x hx
    cases hc : cancelIF k with
    | true =>
      cases swallow <;>
        simp [requestGo, hc, cancelRequest, deleteEntry, hx]
    | false =>
      by_cases hab : s.nextCtrl ∈ s.aborted
      · cases swallow <;> simp [requestGo, hc, hab, deleteEntry, hx]
      · rcases hA : attemptOutcome transport k with e | d
        · cases swallow <;> simp [requestGo, hc, hab, hA, deleteEntry, hx]
        · simp [requestGo, hc, hab, hA, deleteEntry, hx]
  | succ b ih =>
    intro k retries s x hx
    cases hc : cancelIF k with
    | true =>
      cases swallow <;>
        simp [requestGo, hc, cancelRequest, deleteEntry, hx]
    | false =>
      by_cases hab : s.nextCtrl ∈ s.aborted
      · cases swallow <;> simp [requestGo, hc, hab, deleteEntry, hx]
      · rcases hA : attemptOutcome transport k with e | d
        · by_cases hg : retries < c.maxRetries ∧ shouldRetry c.withRetry e = true
          · simp [requestGo, hc, hab, hA, hg, deleteEntry, cancelRequest_absent,
              ih _ _ _ x hx, hx]
          · cases swallow <;> simp [requestGo, hc, hab, hA, hg, deleteEntry, hx]
        · simp [requestGo, hc, hab, hA, deleteEntry, hx]

/-- Cancelling while an attempt is in flight aborts that fetch; the abort
surfaces as a transport-level error, which `shouldRetry` rejects, so the
whole chain ends with that attempt. -/
theorem requestGo_cancelIF_ends_chain (c : Client)
    (transport : Nat → FetchResult) (cancelIF cancelBO : Nat → Bool)
    (id : String) (b k retries : Nat) (s : State)
    (hc : cancelIF k = true) :
    (requestGo c false transport cancelIF cancelBO id b k retries s).attempts = 1 ∧
    (requestGo c false transport cancelIF cancelBO id b k retries s).result =
      .error (.transportError "AbortError") := by
  cases b <;> simp [requestGo, hc, cancelRequest, deleteEntry]

/-- Every attempt of a run uses a fresh `AbortController` of its own: the
controllers of one logical call are the consecutive identities starting at
the initial supply value, one per attempt. -/
theorem requestGo_ctrls_fresh (c : Client) (swallow : Bool)
    (transport : Nat → FetchResult) (cancelIF cancelBO : Nat → Bool)
    (id : String) :
    ∀ b k retries s,
      (requestGo c swallow transport cancelIF cancelBO id b k retries s).ctrls =
        List.range' s.nextCtrl
          (requestGo c swallow transport cancelIF cancelBO id b k retries s).attempts := by
  intro b
  induction b with
  | zero =>
    intro k retries s
    simp only [requestGo]
    split
    · simp [List.range']
    · cases swallow <;> simp [List.range']
  | succ b ih =>
    intro k retries s
    cases hc : cancelIF k with
    | true =>
      cases swallow <;> simp [requestGo, hc, cancelRequest, deleteEntry, List.range']
    | false =>
      by_cases hab : s.nextCtrl ∈ s.aborted
      · cases swallow <;> simp [requestGo, hc, hab, deleteEntry, List.range']
      · rcases hA : attemptOutcome transport k with e | d
        · by_cases hg : retries < c.maxRetries ∧ shouldRetry c.withRetry e = true
          · simp [requestGo, hc, hab, hA, hg, deleteEntry, cancelRequest_absent, ih,
              List.range']
          · cases swallow <;> simp [requestGo, hc, hab, hA, hg, deleteEntry, List.range']
        · simp [requestGo, hc, hab, hA, deleteEntry, List.range']

/-- When no cancellation happens, no stale abort is pending and every
attempt classifies to the same error, that error surfaces (default
`handleError`). -/
theorem requestGo_const_error_tracked (c : Client) (transport : Nat → FetchResult)
    (cancelIF cancelBO : Nat → Bool) (id : String) (e : ApiErr)
    (hIF : ∀ j, cancelIF j = false) (hBO : ∀ j, cancelBO j = false)
    (hA : ∀ j, attemptOutcome transport j = .error e) :
    ∀ b k retries s, s.aborted = [] →
      (requestGo c false transport cancelIF cancelBO id b k retries s).result =
        .error e := by
  intro b
  induction b with
  | zero =>
    intro k retries s hs
    simp [requestGo, hIF k, hs, hA k]
  | succ b ih =>
    intro k retries s hs
    by_cases hg : retries < c.maxRetries ∧ shouldRetry c.withRetry e = true
    · simp only [requestGo]
      simp [hIF k, hBO k, hs, hA k, hg, deleteEntry, cancelRequest_absent]
      exact ih (k + 1) (retries + 1) _ (by simp [hs])
    · simp [requestGo, hIF k, hs, hA k, hg]

/-- With `handleError` overridden to return and a transport that never
yields a response, a run of the identifier-tracking variant resolves with
`null`. -/
theorem requestGo_netError_swallow (c : Client)
    (cancelIF cancelBO : Nat → Bool) (id : String) (m : String) :
    ∀ b k retries s,
      (requestGo c true (fun _ => .netError m) cancelIF cancelBO id
        b k retries s).result = .ok none := by
  intro b
  cases b <;> intro k retries s <;>
    cases hc : cancelIF k <;>
      by_cases hab : s.nextCtrl ∈ s.aborted <;>
        simp [requestGo, attemptOutcome, hc, hab, cancelRequest, deleteEntry]

end Tracking

/-- With `handleError` overridden to return and a transport that always
yields the same unclassifiable response, a named-variant run resolves with
the last response and `null` data. -/
theorem Named.requestGo_const_swallow (c : Named.Client) (r : Named.Response)
    (e : ApiErr) (hc : Named.classifyResponse r = .error e) :
    ∀ b k retries,
      (Named.requestGo c true (fun _ => .ok r) b k retries).result =
        .ok (some r, none) := by
  intro b
  induction b with
  | zero =>
    intro k retries
    simp [Named.requestGo, Named.attemptOutcome, hc]
  | succ b ih =>
    intro k retries
    by_cases hg : retries < c.maxRetries ∧ shouldRetry c.withRetry e = true
    · simp [Named.requestGo, Named.attemptOutcome, hc, hg, ih]
    · simp [Named.requestGo, Named.attemptOutcome, hc, hg]

/-- A named-variant client configured exactly as claim C1 describes:
retry enabled, three retries, 500 ms initial delay. -/
def retryClientNamed : Named.Client :=
  { baseUrl := "https://api.example.com"
    headers := [("Content-Type", "application/json")]
    withRetry := true
    maxRetries := 3
    initialDelayMs := 500
    name := "Example API Client" }

/-- The tracking-variant client built by its constructor from a retry
configuration with the source defaults (maxRetries 3, delay 500). -/
def retryClientTracking : Tracking.Client :=
  Tracking.mkClient { baseUrl := "https://api.example.com", withRetry := some true }

/-- A transport answering every attempt with status 503 and a JSON body. -/
def always503Named : Named.RequestConfig → Nat → Named.FetchResult :=
  fun _ _ => .ok ⟨503, "application/json", .jsonVal "overloaded"⟩

/-- A transport answering every attempt with status 503 and a JSON body. -/
def always503Tracking : Tracking.RequestConfig → Nat → Tracking.FetchResult :=
  fun _ _ => .ok ⟨503, .jsonVal "overloaded"⟩

/-- The caller never invokes `cancelRequest`. -/
def noCancel : Nat → Bool := fun _ => false

/-- Claim C1: with retry enabled, `maxRetries = 3`, `initialDelayMs = 500`
and a transport that always answers 503, the claim predicts 4 fetch
attempts with backoff delays 500, 1000, 2000 before the response error
surfaces.  The identifier-tracking variant, whose retries counter starts
at 0, does exactly that (second to fourth conjuncts).  The named-file
variant, however, defaults the retries counter to `this.maxRetries`
(source line 91), so the guard `retries < this.maxRetries` of line 163 is
false from the first failure on and a default call performs exactly one
attempt, inserts no delay, and surfaces the error at once (first
conjunct) — the retry machinery is unreachable from every public entry
point. -/
theorem C1_attempt_counts_503 :
    Named.requestDefault retryClientNamed false "/things" none {} always503Named =
      { attempts := 1, delays := [],
        result := .error (.responseError 503 "overloaded") } ∧
    (Tracking.request retryClientTracking false "GET" "/things" none []
        always503Tracking noCancel noCancel "req-1" Tracking.State.init).attempts = 4 ∧
    (Tracking.request retryClientTracking false "GET" "/things" none []
        always503Tracking noCancel noCancel "req-1" Tracking.State.init).delays =
      [500, 1000, 2000] ∧
    (Tracking.request retryClientTracking false "GET" "/things" none []
        always503Tracking noCancel noCancel "req-1" Tracking.State.init).result =
      .error (.responseError 503 "overloaded") := by
  refine ⟨by decide, by decide, by decide, by decide⟩

/-- Claim C2: the retry predicate holds exactly when retry is enabled, the
error is a response error, and its status is at least 500; consequently a
404 response surfaces on the first attempt with no retry (under any retry
configuration), and parse errors and transport errors are never
retryable. -/
theorem C2_retry_predicate :
    (∀ (w : Bool) (e : ApiErr),
        shouldRetry w e = true ↔
          w = true ∧ ∃ st bo, e = .responseError st bo ∧ 500 ≤ st) ∧
    (∀ (c : Named.Client) (transport : Nat → Named.FetchResult)
        (r : Named.Response) (b retries : Nat),
        transport 0 = .ok r → r.status = 404 →
        Named.requestGo c false transport b 0 retries =
          { attempts := 1, delays := [],
            result := .error (.responseError 404 (bodyText r.body)) }) ∧
    (∀ (w : Bool) (st : Nat) (bo : String),
        shouldRetry w (.parseError st bo) = false) ∧
    (∀ (w : Bool) (m : String), shouldRetry w (.transportError m) = false) := by
  refine ⟨?_, ?_, fun w st bo => shouldRetry_parseError w st bo,
    fun w m => shouldRetry_transportError w m⟩
  · intro w e
    constructor
    · intro h
      cases e with
      | responseError st bo =>
        rw [shouldRetry_responseError] at h
        simp only [Bool.and_eq_true, decide_eq_true_eq] at h
        exact ⟨h.1, st, bo, rfl, h.2⟩
      | parseError st bo => simp at h
      | genericError m => simp at h
      | transportError m => simp at h
    · rintro ⟨hw, st, bo, rfl, hst⟩
      rw [shouldRetry_responseError, hw]
      simp [hst]
  · intro c transport r b retries h0 hst
    have hA : Named.attemptOutcome transport 0 =
        (some r, .error (.responseError 404 (bodyText r.body))) := by
      simp [Named.attemptOutcome, h0, Named.classifyResponse, hst, statusOk]
    rw [Named.requestGo_no_retry c false transport b 0 retries (some r) _ hA
      (by rw [shouldRetry_responseError]; simp)]
    simp

/-- Witness for C2 at a concrete 404 scenario. -/
theorem C2_witness :
    Named.requestGo retryClientNamed false
        (fun _ => .ok ⟨404, "application/json", .jsonVal "missing"⟩) 3 0 0 =
      { attempts := 1, delays := [],
        result := .error (.responseError 404 "missing") } :=
  C2_retry_predicate.2.1 retryClientNamed
    (fun _ => .ok ⟨404, "application/json", .jsonVal "missing"⟩)
    ⟨404, "application/json", .jsonVal "missing"⟩ 3 0 rfl rfl

/-- A tracking-variant transport: 503 on the first attempt, 200 with a
JSON body afterwards. -/
def flaky503Tracking : Tracking.RequestConfig → Nat → Tracking.FetchResult :=
  fun _ k =>
    if k == 0 then .ok ⟨503, .jsonVal "overloaded"⟩ else .ok ⟨200, .jsonVal "fine"⟩

/-- The caller invokes `cancelRequest` during the backoff delay that
follows the first attempt. -/
def cancelDuringFirstBackoff : Nat → Bool := fun j => j == 0

/-- Claim C3 counterexample: with retry enabled and a 503 on the first
attempt, the caller invokes `cancelRequest "req-1"` during the backoff
delay before the first retry.  The error path had already deleted the
registry entry (part_000 line 132 runs before the delay), so the
cancellation finds nothing to abort, a second attempt is dispatched
anyway, and the call resolves with its data — the chain is not aborted.
Moreover the two attempts used two distinct controllers (identities 0 and
1), not one shared cancellation signal. -/
theorem C3_counterexample :
    (Tracking.request retryClientTracking false "GET" "/things" none []
        flaky503Tracking noCancel cancelDuringFirstBackoff "req-1"
        Tracking.State.init).attempts = 2 ∧
    (Tracking.request retryClientTracking false "GET" "/things" none []
        flaky503Tracking noCancel cancelDuringFirstBackoff "req-1"
        Tracking.State.init).result = .ok (some "fine") ∧
    (Tracking.request retryClientTracking false "GET" "/things" none []
        flaky503Tracking noCancel cancelDuringFirstBackoff "req-1"
        Tracking.State.init).ctrls = [0, 1] := by
  refine ⟨by decide, by decide, by decide⟩

/-- Claim C3 (amended): every attempt of one logical call reuses the same
request identifier, but each attempt creates a fresh `AbortController`
and registers its own signal under that identifier (the controllers of a
run are consecutive fresh identities, one per attempt).  Invoking
`cancelRequest` while an attempt is in flight aborts that attempt and,
because the abort surfaces as a non-retryable transport error, ends the
chain with it; invoking it during a backoff delay finds no registry
entry, is a no-op, and the next attempt is still dispatched. -/
theorem C3_cancellation_scope :
    (∀ (c : Tracking.Client) (transport : Nat → Tracking.FetchResult)
        (cancelIF cancelBO : Nat → Bool) (id : String) (b k retries : Nat)
        (s : Tracking.State), cancelIF k = true →
        (Tracking.requestGo c false transport cancelIF cancelBO id
            b k retries s).attempts = 1 ∧
        (Tracking.requestGo c false transport cancelIF cancelBO id
            b k retries s).result = .error (.transportError "AbortError")) ∧
    (∀ (c : Tracking.Client) (swallow : Bool)
        (transport : Nat → Tracking.FetchResult)
        (cancelIF cancelBO : Nat → Bool) (id : String) (b k retries : Nat)
        (s : Tracking.State),
        (Tracking.requestGo c swallow transport cancelIF cancelBO id
            b k retries s).ctrls =
          List.range' s.nextCtrl
            (Tracking.requestGo c swallow transport cancelIF cancelBO id
              b k retries s).attempts) := by
  exact ⟨fun c transport cIF cBO id b k retries s hc =>
      Tracking.requestGo_cancelIF_ends_chain c transport cIF cBO id b k retries s hc,
    fun c swallow transport cIF cBO id b k retries s =>
      Tracking.requestGo_ctrls_fresh c swallow transport cIF cBO id b k retries s⟩

/-- Witness for C3 at a concrete in-flight cancellation: the cancelled
attempt would have succeeded, yet the chain ends with the abort. -/
theorem C3_witness :
    (Tracking.requestGo retryClientTracking false
        (fun _ => .ok ⟨200, .jsonVal "fine"⟩) (fun _ => true) noCancel
        "req-1" 3 0 0 Tracking.State.init).result =
      .error (.transportError "AbortError") :=
  (C3_cancellation_scope.1 retryClientTracking
    (fun _ => .ok ⟨200, .jsonVal "fine"⟩) (fun _ => true) noCancel
    "req-1" 3 0 0 Tracking.State.init rfl).2

/-- Claim C4: in the named-file variant the effective headers of a
dispatched request realise exactly the layering the spec describes
(default `Content-Type: application/json`, overlaid by the client
defaults, overlaid by the per-call overrides, later layers winning) — the
first conjunct equates the lookup in the merged headers the code builds
with `specHeaderLookup`.  The identifier-tracking variant instead spreads
a `Headers` instance at part_000 line 85, which contributes no entries,
so a client constructed with a default `Authorization` header dispatches
a request whose header record is empty: neither the configured header nor
the default `Content-Type` survives, against the claimed layering
(remaining conjuncts). -/
theorem C4_header_merge_layering :
    (∀ (cfg : Named.ClientConfig) (c : Named.Client),
        Named.mkClient cfg = .ok c →
        ∀ (rCfg : Named.RInit) (path : String) (body : Option String)
          (k : String),
          recLookup (Named.buildRequestConfig c path body rCfg).headers k =
            specHeaderLookup (cfg.headers.getD []) rCfg.headers k) ∧
    (Tracking.buildConfig
        (Tracking.mkClient
          { baseUrl := "https://api.example.com"
            headers := some [("Authorization", "tok")] })
        "GET" "/u" none []).headers = [] ∧
    specHeaderLookup [("Authorization", "tok")] [] "Authorization" = some "tok" ∧
    specHeaderLookup [("Authorization", "tok")] [] "Content-Type" =
      some "application/json" := by
  refine ⟨?_, by decide, by decide, by decide⟩
  intro cfg c h rCfg path body k
  have hh : c.headers =
      spreadTwo [("Content-Type", "application/json")] (cfg.headers.getD []) := by
    simp only [Named.mkClient] at h
    by_cases hb : cfg.baseUrl == ""
    · simp [hb] at h
    · by_cases hn : cfg.name == ""
      · simp [hb, hn] at h
      · simp [hb, hn] at h
        rw [← h]
  cases hO : recLookup rCfg.headers k with
  | some v =>
    simp [Named.buildRequestConfig, specHeaderLookup, recLookup_spreadTwo, hh, hO]
  | none =>
    cases hH : recLookup (cfg.headers.getD []) k with
    | some v =>
      simp [Named.buildRequestConfig, specHeaderLookup, recLookup_spreadTwo,
        hh, hO, hH]
    | none =>
      simp [Named.buildRequestConfig, specHeaderLookup, recLookup_spreadTwo,
        hh, hO, hH]

/-- The configuration of the C4 witness client. -/
def c4cfg : Named.ClientConfig :=
  { baseUrl := "https://api.example.com"
    headers := some [("X-Api", "1")]
    name := "Example API Client" }

/-- The client the named-variant constructor builds from `c4cfg`. -/
def c4client : Named.Client :=
  { baseUrl := "https://api.example.com"
    headers := [("Content-Type", "application/json"), ("X-Api", "1")]
    withRetry := false
    maxRetries := 3
    initialDelayMs := 500
    name := "Example API Client" }

/-- Witness for C4 at a concrete client, override record and key. -/
theorem C4_witness :
    recLookup
        (Named.buildRequestConfig c4client "/u" none
          { headers := [("X-Api", "2")] }).headers "X-Api" =
      specHeaderLookup [("X-Api", "1")] [("X-Api", "2")] "X-Api" :=
  C4_header_merge_layering.1 c4cfg c4client (by decide)
    { headers := [("X-Api", "2")] } "/u" none "X-Api"

/-- Claim C5: the registry maps each identifier to at most one abort
handle (it is a string-keyed mapping); over any run, one entry is
registered per attempt and a present entry is physically removed exactly
once per attempt across every completion path (success, error, or
explicit cancellation — a delete that follows a cancellation hits an
absent key and removes nothing); after the run the identifier is absent
from the registry; entries of every other identifier are untouched; and
`cancelRequest` on an identifier with no entry returns the state
unchanged (raising nothing) and never modifies another identifier's
entry. -/
theorem C5_registry_lifecycle :
    (∀ (c : Tracking.Client) (swallow : Bool)
        (transport : Nat → Tracking.FetchResult)
        (cancelIF cancelBO : Nat → Bool) (id : String) (b k retries : Nat)
        (s : Tracking.State),
        (Tracking.requestGo c swallow transport cancelIF cancelBO id
            b k retries s).created =
          (Tracking.requestGo c swallow transport cancelIF cancelBO id
            b k retries s).attempts ∧
        (Tracking.requestGo c swallow transport cancelIF cancelBO id
            b k retries s).removals =
          (Tracking.requestGo c swallow transport cancelIF cancelBO id
            b k retries s).attempts ∧
        (Tracking.requestGo c swallow transport cancelIF cancelBO id
            b k retries s).state.registry id = none ∧
        ∀ x, x ≠ id →
          (Tracking.requestGo c swallow transport cancelIF cancelBO id
            b k retries s).state.registry x = s.registry x) ∧
    (∀ (s : Tracking.State) (id : String), s.registry id = none →
        Tracking.cancelRequest s id = s) ∧
    (∀ (s : Tracking.State) (id x : String), x ≠ id →
        (Tracking.cancelRequest s id).registry x = s.registry x) := by
  refine ⟨fun c swallow transport cIF cBO id b k retries s =>
      ⟨Tracking.requestGo_created c swallow transport cIF cBO id b k retries s,
       Tracking.requestGo_removals c swallow transport cIF cBO id b k retries s,
       Tracking.requestGo_registry_cleared c swallow transport cIF cBO id b k retries s,
       fun x hx =>
         Tracking.requestGo_registry_frame c swallow transport cIF cBO id
           b k retries s x hx⟩,
    Tracking.cancelRequest_absent, Tracking.cancelRequest_frame⟩

/-- Witness for C5 at a concrete run and a concrete unknown identifier. -/
theorem C5_witness :
    (Tracking.requestGo retryClientTracking false
        (fun _ => .ok ⟨503, .jsonVal "overloaded"⟩) noCancel noCancel
        "req-1" 3 0 0 Tracking.State.init).state.registry "other" =
      Tracking.State.init.registry "other" ∧
    Tracking.cancelRequest Tracking.State.init "ghost" = Tracking.State.init :=
  ⟨(C5_registry_lifecycle.1 retryClientTracking false
      (fun _ => .ok ⟨503, .jsonVal "overloaded"⟩) noCancel noCancel
      "req-1" 3 0 0 Tracking.State.init).2.2.2 "other" (by decide),
   C5_registry_lifecycle.2.1 Tracking.State.init "ghost" rfl⟩

/-- Whether a settled tracking-variant outcome rejected with an
`ApiResponseError`. -/
def rejectedWithResponseError (r : Except ApiErr (Option String)) : Bool :=
  match r with
  | .error (.responseError _ _) => true
  | _ => false

/-- A transport answering every attempt with a 404 whose body is not
JSON. -/
def nonJson404Tracking : Tracking.RequestConfig → Nat → Tracking.FetchResult :=
  fun _ _ => .ok ⟨404, .rawText "<html>not json</html>"⟩

/-- Claim C6 counterexample: in the identifier-tracking variant (cited by
the claim), a response with the non-success status 404 and a body that
fails JSON decode surfaces as `ApiParseError` — not as the
`ApiResponseError` the claim asserts for every non-success status —
because part_000 line 107 attempts `response.json()` before the status
check. -/
theorem C6_counterexample :
    (Tracking.request retryClientTracking false "GET" "/u" none []
        nonJson404Tracking noCancel noCancel "req-6"
        Tracking.State.init).result =
      .error (.parseError 404 "<html>not json</html>") ∧
    rejectedWithResponseError
      (Tracking.request retryClientTracking false "GET" "/u" none []
        nonJson404Tracking noCancel noCancel "req-6"
        Tracking.State.init).result = false := by
  refine ⟨by decide, by decide⟩

/-- Claim C6 (amended): a success-status response whose body fails
structured decode raises `ApiParseError` carrying the status and the
recoverable body — never `ApiResponseError` — under any retry
configuration, in both the named variant (first conjunct) and the
tracking variant (second conjunct).  A non-success status raises
`ApiResponseError` carrying status and body in the content-negotiating
named variant (third conjunct); in the unconditional-JSON tracking
variant it does so only when the body parses as JSON (fourth conjunct) —
a non-JSON body there surfaces as `ApiParseError` instead (see the
counterexample). -/
theorem C6_decode_failure_classification :
    (∀ (c : Named.Client) (transport : Nat → Named.FetchResult)
        (r : Named.Response) (str : String) (b retries : Nat),
        transport 0 = .ok r → statusOk r.status = true →
        includesStr r.contentType "application/json" = true →
        r.body = .rawText str →
        Named.requestGo c false transport b 0 retries =
          { attempts := 1, delays := [],
            result := .error (.parseError r.status str) }) ∧
    (∀ (c : Tracking.Client) (transport : Nat → Tracking.FetchResult)
        (r : Tracking.Response) (str : String) (id : String)
        (b k retries : Nat) (s : Tracking.State),
        (∀ j, transport j = .ok r) → statusOk r.status = true →
        r.body = .rawText str → s.aborted = [] →
        (Tracking.requestGo c false transport noCancel noCancel id
            b k retries s).result = .error (.parseError r.status str)) ∧
    (∀ (c : Named.Client) (transport : Nat → Named.FetchResult)
        (r : Named.Response) (b k retries : Nat),
        (∀ j, transport j = .ok r) → statusOk r.status = false →
        (Named.requestGo c false transport b k retries).result =
          .error (.responseError r.status (bodyText r.body))) ∧
    (∀ (c : Tracking.Client) (transport : Nat → Tracking.FetchResult)
        (r : Tracking.Response) (v : String) (id : String)
        (b k retries : Nat) (s : Tracking.State),
        (∀ j, transport j = .ok r) → r.body = .jsonVal v →
        statusOk r.status = false → s.aborted = [] →
        (Tracking.requestGo c false transport noCancel noCancel id
            b k retries s).result = .error (.responseError r.status v)) := by
  refine ⟨?_, ?_, ?_, ?_⟩
  · intro c transport r str b retries h0 hst hct hbody
    have hA : Named.attemptOutcome transport 0 =
        (some r, .error (.parseError r.status str)) := by
      simp [Named.attemptOutcome, h0, Named.classifyResponse, hst, hct, hbody]
    rw [Named.requestGo_no_retry c false transport b 0 retries (some r) _ hA
      (by simp)]
    simp
  · intro c transport r str id b k retries s htr hst hbody hs
    exact Tracking.requestGo_const_error_tracked c transport noCancel noCancel id
      (.parseError r.status str) (fun _ => rfl) (fun _ => rfl)
      (fun j => by simp [Tracking.attemptOutcome, htr j,
        Tracking.classifyResponse, hbody])
      b k retries s hs
  · intro c transport r b k retries htr hst
    exact Named.requestGo_const_error c transport
      (.responseError r.status (bodyText r.body))
      (fun j => by simp [Named.attemptOutcome, htr j,
        Named.classifyResponse, hst])
      b k retries
  · intro c transport r v id b k retries s htr hbody hst hs
    exact Tracking.requestGo_const_error_tracked c transport noCancel noCancel id
      (.responseError r.status v) (fun _ => rfl) (fun _ => rfl)
      (fun j => by simp [Tracking.attemptOutcome, htr j,
        Tracking.classifyResponse, hbody, hst])
      b k retries s hs

/-- Witness for C6 at a concrete undecodable 200 response. -/
theorem C6_witness :
    Named.requestGo retryClientNamed false
        (fun _ => .ok ⟨200, "application/json", .rawText "truncated"⟩) 3 0 0 =
      { attempts := 1, delays := [],
        result := .error (.parseError 200 "truncated") } :=
  C6_decode_failure_classification.1 retryClientNamed
    (fun _ => .ok ⟨200, "application/json", .rawText "truncated"⟩)
    ⟨200, "application/json", .rawText "truncated"⟩ "truncated" 3 0
    rfl (by decide) (by decide) rfl

/-- Claim C7: in the content-negotiating named variant, a success-status
response whose declared content type matches none of the four supported
families fails with the generic unsupported-response-type `Error` — by
constructor neither an `ApiParseError` nor an `ApiResponseError` — on the
first attempt, under every retry configuration (the generic error is
never retryable). -/
theorem C7_unsupported_content_type :
    ∀ (c : Named.Client) (transport : Nat → Named.FetchResult)
      (r : Named.Response) (b retries : Nat),
      transport 0 = .ok r → statusOk r.status = true →
      includesStr r.contentType "application/json" = false →
      includesStr r.contentType "text/" = false →
      includesStr r.contentType "application/blob" = false →
      includesStr r.contentType "application/x-www-form-urlencoded" = false →
      Named.requestGo c false transport b 0 retries =
        { attempts := 1, delays := [],
          result := .error (.genericError
            ("Unsupported response type: " ++ r.contentType)) } := by
  intro c transport r b retries h0 hst h1 h2 h3 h4
  have hA : Named.attemptOutcome transport 0 =
      (some r, .error (.genericError
        ("Unsupported response type: " ++ r.contentType))) := by
    simp [Named.attemptOutcome, h0, Named.classifyResponse, hst, h1, h2, h3, h4]
  rw [Named.requestGo_no_retry c false transport b 0 retries (some r) _ hA
    (by simp)]
  simp

/-- Witness for C7 at a concrete unsupported content type. -/
theorem C7_witness :
    Named.requestGo retryClientNamed false
        (fun _ => .ok ⟨200, "application/octet-stream", .rawText "bytes"⟩) 3 0 0 =
      { attempts := 1, delays := [],
        result := .error (.genericError
          "Unsupported response type: application/octet-stream") } :=
  C7_unsupported_content_type retryClientNamed
    (fun _ => .ok ⟨200, "application/octet-stream", .rawText "bytes"⟩)
    ⟨200, "application/octet-stream", .rawText "bytes"⟩ 3 0
    rfl (by decide) (by decide) (by decide) (by decide) (by decide)

/-- Claim C8: a GET call never serializes or transmits a body: the
dispatched `RequestInit` carries a null body even when the caller passes
one, in both variants. -/
theorem C8_get_requests_carry_no_body :
    (∀ (c : Named.Client) (path : String) (body : Option String)
        (cfg : Named.RInit), Named.effMethod cfg.method = "GET" →
        (Named.buildRequestConfig c path body cfg).body = SentBody.none) ∧
    (∀ (c : Tracking.Client) (path : String) (body : Option String)
        (custom : List (String × String)),
        (Tracking.buildConfig c "GET" path body custom).body = SentBody.none) := by
  constructor
  · intro c path body cfg h
    cases body <;> simp [Named.buildRequestConfig, h]
  · intro c path body custom
    cases body <;> simp [Tracking.buildConfig]

/-- Witness for C8: a GET with a non-null body argument dispatches a null
body. -/
theorem C8_witness :
    (Named.buildRequestConfig retryClientNamed "/u" (some "payload")
        { method := some "GET" }).body = SentBody.none :=
  C8_get_requests_carry_no_body.1 retryClientNamed "/u" (some "payload")
    { method := some "GET" } rfl

/-- Claim C9 counterexample: the identifier-tracking constructor (part_000
lines 47 to 62) performs no validation, so constructing with an empty
base URL raises no configuration error — it simply yields this client
value (with the defaults applied). -/
theorem C9_counterexample :
    Tracking.mkClient { baseUrl := "" } =
      { baseUrl := ""
        headers := ⟨[("Content-Type", "application/json")]⟩
        withRetry := false
        maxRetries := 3
        initialDelayMs := 500 } := by decide

/-- Claim C9 (amended): only the named-file variant validates eagerly —
its constructor errors exactly when `baseUrl` or `name` is empty (or
missing), and validates nothing else; the identifier-tracking variant has
no construction-time validation at all, so an empty base URL is accepted
there (the constructor is total and copies the base URL verbatim). -/
theorem C9_eager_validation :
    (∀ cfg : Named.ClientConfig,
        (∃ msg, Named.mkClient cfg = .error msg) ↔
          (cfg.baseUrl = "" ∨ cfg.name = "")) ∧
    (∀ cfg : Tracking.ClientConfig,
        (Tracking.mkClient cfg).baseUrl = cfg.baseUrl) := by
  constructor
  · intro cfg
    constructor
    · rintro ⟨msg, h⟩
      simp only [Named.mkClient] at h
      by_cases hb : cfg.baseUrl == ""
      · exact Or.inl (by simpa using hb)
      · by_cases hn : cfg.name == ""
        · exact Or.inr (by simpa using hn)
        · simp [hb, hn] at h
    · intro h
      simp only [Named.mkClient]
      by_cases hb : cfg.baseUrl == ""
      · exact ⟨"Base URL is required when setting up a BetterFetchClient",
          by simp [hb]⟩
      · have hn : (cfg.name == "") = true := by
          rcases h with h | h
          · exact absurd (by simp [h]) hb
          · simp [h]
        exact ⟨"Name is required when setting up BetterFetchClient",
          by simp [hb, hn]⟩
  · intro cfg
    rfl

/-- Witness for C9: an empty base URL makes the named constructor
error. -/
theorem C9_witness :
    ∃ msg, Named.mkClient { baseUrl := "", name := "Example API Client" } =
      .error msg :=
  (C9_eager_validation.1 { baseUrl := "", name := "Example API Client" }).mpr
    (Or.inl rfl)

/-- Claim C10: with `handleError` overridden to return instead of
re-throwing, a run never rejects (first conjunct); when the transport
never yields a response, the named variant resolves with an undefined
`rawResponse` and null data (second conjunct); when every attempt yields
the same response whose classification fails, the named variant resolves
with that last response and null data once retries are exhausted or the
error is not retryable (third conjunct); the tracking variant likewise
resolves with null (fourth conjunct). -/
theorem C10_swallowed_errors_resolve_null :
    (∀ (c : Named.Client) (transport : Nat → Named.FetchResult)
        (b k retries : Nat),
        ∃ p, (Named.requestGo c true transport b k retries).result = .ok p) ∧
    (∀ (c : Named.Client) (m : String) (b k retries : Nat),
        (Named.requestGo c true (fun _ => .netError m) b k retries).result =
          .ok (none, none)) ∧
    (∀ (c : Named.Client) (r : Named.Response) (e : ApiErr) (b k retries : Nat),
        Named.classifyResponse r = .error e →
        (Named.requestGo c true (fun _ => .ok r) b k retries).result =
          .ok (some r, none)) ∧
    (∀ (c : Tracking.Client) (cancelIF cancelBO : Nat → Bool) (id m : String)
        (b k retries : Nat) (s : Tracking.State),
        (Tracking.requestGo c true (fun _ => .netError m) cancelIF cancelBO id
          b k retries s).result = .ok none) := by
  refine ⟨fun c transport b k retries =>
      Named.requestGo_swallow_resolves c transport b k retries, ?_, ?_, ?_⟩
  · intro c m b k retries
    rw [Named.requestGo_no_retry c true (fun _ => .netError m) b k retries
      none (.transportError m) (by simp [Named.attemptOutcome]) (by simp)]
    simp
  · intro c r e b k retries hc
    exact Named.requestGo_const_swallow c r e hc b k retries
  · intro c cancelIF cancelBO id m b k retries s
    exact Tracking.requestGo_netError_swallow c cancelIF cancelBO id m
      b k retries s

/-- Witness for C10 at a concrete exhausted-retries run with the
error-handling hook overridden to return. -/
theorem C10_witness :
    (Named.requestGo retryClientNamed true
        (fun _ => .ok ⟨503, "application/json", .jsonVal "overloaded"⟩)
        3 0 0).result =
      .ok (some ⟨503, "application/json", .jsonVal "overloaded"⟩, none) :=
  C10_swallowed_errors_resolve_null.2.2.1 retryClientNamed
    ⟨503, "application/json", .jsonVal "overloaded"⟩
    (.responseError 503 "overloaded") 3 0 0 rfl
